import Mathlib

/-!
Verification of the seeding procedure of `src/apps/api/seed_db.py`.

The script populates an empty store with three user accounts and three
projects (work records).  We shallowly embed it: the store is explicit state
(`DB`), Storage id assignment happens at commit, and the procedure is the pure
function `seed`, which also reports the outcome and the sequence of external
operations it performed.  A second embedding, `seedE`, makes every external
call fallible in order to state the error-propagation behaviour.
-/

namespace SeedDb

/-- Account roles (`app.models.user.UserRole`); the spec calls `admin`
"administrator". -/
inductive UserRole
  | admin
  | manager
  | viewer
deriving DecidableEq, Repr

/-- Work-record statuses (`app.models.project.ProjectStatus`); the seed script
uses only `draft` and `active`. -/
inductive ProjectStatus
  | draft
  | active
  | completed
  | archived
deriving DecidableEq, Repr

/-- Work-record priorities (`app.models.project.ProjectPriority`). -/
inductive ProjectPriority
  | low
  | medium
  | high
  | critical
deriving DecidableEq, Repr

/-- An account as constructed by the seed script (`User(...)` in
`seed_db.py`), before Storage has assigned it an identifier. -/
structure User where
  email : String
  full_name : String
  hashed_password : String
  role : UserRole
  is_active : Bool
deriving DecidableEq, Repr

/-- An account as persisted by Storage: the identifier is assigned on
commit. -/
structure StoredUser extends User where
  id : Nat
deriving DecidableEq, Repr

/-- A work record as constructed by the seed script (`Project(...)` in
`seed_db.py`).  The budget is an integer count of minor currency units. -/
structure Project where
  name : String
  description : String
  status : ProjectStatus
  priority : ProjectPriority
  budget : Nat
  owner_id : Nat
deriving DecidableEq, Repr

/-- The relational store: persisted accounts and work records, plus the id
generator state Storage uses when committing an account batch. -/
structure DB where
  users : List StoredUser
  projects : List Project
  nextUserId : Nat
deriving DecidableEq, Repr

/-- Modelled from the spec: `app.core.security.get_password_hash` is not part
of the seed script's source; the spec treats CredentialHasher as an opaque
one-way function whose output is never bit-equal to the plaintext.  We model
it as a tagged encoding of the plaintext, which keeps both that property and
the paired verify operation decidable. -/
def get_password_hash (plaintext : String) : String :=
  "$2b$12$" ++ plaintext

/-- Modelled from the spec: the paired verify operation of CredentialHasher
succeeds exactly on the plaintext the stored hash was produced from. -/
def verify_password (plaintext stored : String) : Bool :=
  stored == get_password_hash plaintext

/-- The three accounts of the fixed seed data, as built at lines 26-46 of
`seed_db.py`. -/
def adminUser : User :=
  { email := "admin@example.com"
    full_name := "Admin User"
    hashed_password := get_password_hash "admin123"
    role := UserRole.admin
    is_active := true }

def managerUser : User :=
  { email := "manager@example.com"
    full_name := "Manager User"
    hashed_password := get_password_hash "manager123"
    role := UserRole.manager
    is_active := true }

def viewerUser : User :=
  { email := "viewer@example.com"
    full_name := "Viewer User"
    hashed_password := get_password_hash "viewer123"
    role := UserRole.viewer
    is_active := true }

/-- The fixed plaintext secret belonging to each seeded account's email, from
the credential table of the seed script (also reported in its final output,
lines 87-90 of `seed_db.py`). -/
def plaintextSecret : String → String
  | "admin@example.com" => "admin123"
  | "manager@example.com" => "manager123"
  | "viewer@example.com" => "viewer123"
  | _ => ""

/-- The three work records of the fixed seed data (lines 57-80 of
`seed_db.py`), parameterised by the owner identifier they reference.
`50000_00` in the source is the integer 5000000. -/
def websiteRedesign (owner : Nat) : Project :=
  { name := "Website Redesign"
    description := "Complete website overhaul with modern design"
    status := ProjectStatus.active
    priority := ProjectPriority.high
    budget := 5000000
    owner_id := owner }

def mobileApp (owner : Nat) : Project :=
  { name := "Mobile App"
    description := "iOS and Android app development"
    status := ProjectStatus.draft
    priority := ProjectPriority.medium
    budget := 10000000
    owner_id := owner }

def apiIntegration (owner : Nat) : Project :=
  { name := "API Integration"
    description := "Third-party payment and shipping integrations"
    status := ProjectStatus.active
    priority := ProjectPriority.critical
    budget := 2500000
    owner_id := owner }

/-- Committing an account batch: Storage persists the rows and assigns them
consecutive identifiers in insertion order. -/
def commitUsers (db : DB) (batch : List User) : DB :=
  { db with
    users := db.users ++ batch.enum.map (fun p => { toUser := p.2, id := db.nextUserId + p.1 })
    nextUserId := db.nextUserId + batch.length }

/-- `session.refresh(u)` after commit: re-read the committed row for `u` and
obtain the identifier Storage assigned to it.  The row is found by the
account's identity key, its email. -/
def refreshedId (db : DB) (u : User) : Nat :=
  ((db.users.find? (fun su => su.email == u.email)).map StoredUser.id).getD 0

/-- The externally visible operations the procedure performs against
Storage, in order. -/
inductive Event
  | countUsers (result : Nat)
  | insertUsers (n : Nat)
  | commit
  | refresh (email : String)
  | insertProjects (n : Nat)
deriving DecidableEq, Repr

/-- The outcome of a run, per the spec's contract `run() -> Outcome`. -/
inductive Outcome
  | Skipped (existingCount : Nat)
  | Seeded (accountsCreated recordsCreated : Nat)
deriving DecidableEq, Repr

/-- Result of a run: the final store, the reported outcome, and the trace of
Storage operations performed. -/
structure SeedResult where
  db : DB
  outcome : Outcome
  trace : List Event
deriving DecidableEq, Repr

/-- Shallow embedding of `seed()` (`src/apps/api/seed_db.py`, lines 11-90):
count the accounts; if any exist, skip without writing; otherwise insert and
commit the three fixed accounts, re-read the admin and manager rows to obtain
their generated identifiers, then insert and commit the three fixed work
records referencing those identifiers. -/
def seed (db : DB) : SeedResult :=
  let user_count := db.users.length
  if user_count > 0 then
    { db := db
      outcome := Outcome.Skipped user_count
      trace := [Event.countUsers user_count] }
  else
    let db1 := commitUsers db [adminUser, managerUser, viewerUser]
    let admin_id := refreshedId db1 adminUser
    let manager_id := refreshedId db1 managerUser
    let db2 := { db1 with
      projects := db1.projects ++
        [websiteRedesign admin_id, mobileApp manager_id, apiIntegration admin_id] }
    { db := db2
      outcome := Outcome.Seeded 3 3
      trace := [Event.countUsers user_count, Event.insertUsers 3, Event.commit,
        Event.refresh adminUser.email, Event.refresh managerUser.email,
        Event.insertProjects 3, Event.commit] }

/-- Checks an operation trace for the two-phase ordering: identifier
retrieval and work-record insertion may occur only once a commit has been
performed that itself followed the account insertion.  The two flags record
whether the account insert, respectively a commit after it, has been seen. -/
def phaseOk : Bool → Bool → List Event → Bool
  | _, _, [] => true
  | inserted, committed, Event.countUsers _ :: rest => phaseOk inserted committed rest
  | _, committed, Event.insertUsers _ :: rest => phaseOk true committed rest
  | inserted, committed, Event.commit :: rest => phaseOk inserted (committed || inserted) rest
  | inserted, committed, Event.refresh _ :: rest => committed && phaseOk inserted committed rest
  | inserted, committed, Event.insertProjects _ :: rest =>
      committed && phaseOk inserted committed rest

/-- Oracle for the external collaborators of one run: every operation the
script performs against Storage or CredentialHasher may fail with an error of
type `ε`. -/
structure Oracle (ε : Type) where
  countUsers : Except ε Nat
  hash : String → Except ε String
  insertUsers : List User → Except ε Unit
  commitUsers : Except ε Unit
  refresh : String → Except ε Nat
  insertProjects : List Project → Except ε Unit
  commitProjects : Except ε Unit

/-- The account batch of a run, given the three hash results returned by
CredentialHasher. -/
def seededUsers (h1 h2 h3 : String) : List User :=
  [{ email := "admin@example.com", full_name := "Admin User", hashed_password := h1,
     role := UserRole.admin, is_active := true },
   { email := "manager@example.com", full_name := "Manager User", hashed_password := h2,
     role := UserRole.manager, is_active := true },
   { email := "viewer@example.com", full_name := "Viewer User", hashed_password := h3,
     role := UserRole.viewer, is_active := true }]

/-- The work-record batch of a run, given the two retrieved owner
identifiers. -/
def seededProjects (admin_id manager_id : Nat) : List Project :=
  [websiteRedesign admin_id, mobileApp manager_id, apiIntegration admin_id]

/-- Shallow embedding of `seed()` with every external call fallible.  The
script wraps none of the calls in a handler (`seed_db.py` contains no
try/except), so each call's error short-circuits the rest of the procedure
through the `Except` bind. -/
def seedE {ε : Type} (o : Oracle ε) : Except ε Outcome :=
  o.countUsers.bind fun user_count =>
  if user_count > 0 then Except.ok (Outcome.Skipped user_count) else
  (o.hash "admin123").bind fun h1 =>
  (o.hash "manager123").bind fun h2 =>
  (o.hash "viewer123").bind fun h3 =>
  (o.insertUsers (seededUsers h1 h2 h3)).bind fun _ =>
  o.commitUsers.bind fun _ =>
  (o.refresh "admin@example.com").bind fun admin_id =>
  (o.refresh "manager@example.com").bind fun manager_id =>
  (o.insertProjects (seededProjects admin_id manager_id)).bind fun _ =>
  o.commitProjects.bind fun _ =>
  Except.ok (Outcome.Seeded 3 3)

/-- A store with no rows at all; the id generator starts at 1. -/
def emptyDB : DB := { users := [], projects := [], nextUserId := 1 }

/-- A store that already holds one committed account. -/
def oneUserDB : DB :=
  { users := [{ toUser := adminUser, id := 1 }], projects := [], nextUserId := 2 }

/-- An oracle whose count query fails and whose other operations succeed. -/
def failingOracle : Oracle String :=
  { countUsers := Except.error "db down"
    hash := fun _ => Except.ok "h"
    insertUsers := fun _ => Except.ok ()
    commitUsers := Except.ok ()
    refresh := fun _ => Except.ok 1
    insertProjects := fun _ => Except.ok ()
    commitProjects := Except.ok () }

theorem beq_succ_left (n : Nat) : (n + 1 == n) = false := by simp

theorem beq_succ_right (n : Nat) : (n == n + 1) = false := by simp

/-- C1: for every store with account count zero, running the seed procedure
creates exactly three accounts and exactly three work records and returns the
outcome `Seeded 3 3`. -/
theorem seed_empty_creates_three (db : DB) (h : db.users.length = 0) :
    (seed db).db.users.length = 3 ∧
    (seed db).db.projects.length = db.projects.length + 3 ∧
    (seed db).outcome = Outcome.Seeded 3 3 := by
  obtain ⟨us, ps, n⟩ := db
  simp only [List.length_eq_zero] at h
  subst h
  refine ⟨rfl, ?_, rfl⟩
  simp [seed, commitUsers]

theorem seed_empty_creates_three_witness :
    (seed emptyDB).db.users.length = 3 ∧
    (seed emptyDB).db.projects.length = emptyDB.projects.length + 3 ∧
    (seed emptyDB).outcome = Outcome.Seeded 3 3 :=
  seed_empty_creates_three emptyDB rfl

/-- C2: for every store with at least one account, the seed procedure writes
nothing (the store is returned unchanged and the only Storage operation is the
count query) and returns `Skipped count` with the pre-existing account
count. -/
theorem seed_nonempty_skips (db : DB) (h : 0 < db.users.length) :
    (seed db).db = db ∧
    (seed db).outcome = Outcome.Skipped db.users.length ∧
    (seed db).trace = [Event.countUsers db.users.length] := by
  unfold seed
  rw [if_pos h]
  exact ⟨rfl, rfl, rfl⟩

theorem seed_nonempty_skips_witness :
    (seed oneUserDB).db = oneUserDB ∧
    (seed oneUserDB).outcome = Outcome.Skipped 1 ∧
    (seed oneUserDB).trace = [Event.countUsers 1] := by
  have h := seed_nonempty_skips oneUserDB (by decide)
  exact ⟨h.1, h.2.1, h.2.2⟩

/-- C3: running the seed procedure twice on an initially-empty store leaves
exactly 3 accounts and 3 work records; the second run changes nothing, its
only Storage operation is the count query, and it returns `Skipped 3`. -/
theorem seed_idempotent (db : DB) (h1 : db.users = []) (h2 : db.projects = []) :
    (seed (seed db).db).db = (seed db).db ∧
    (seed (seed db).db).outcome = Outcome.Skipped 3 ∧
    (seed (seed db).db).trace = [Event.countUsers 3] ∧
    (seed (seed db).db).db.users.length = 3 ∧
    (seed (seed db).db).db.projects.length = 3 := by
  obtain ⟨us, ps, n⟩ := db
  subst h1
  subst h2
  exact ⟨rfl, rfl, rfl, rfl, rfl⟩

theorem seed_idempotent_witness :
    (seed (seed emptyDB).db).db = (seed emptyDB).db ∧
    (seed (seed emptyDB).db).outcome = Outcome.Skipped 3 ∧
    (seed (seed emptyDB).db).trace = [Event.countUsers 3] ∧
    (seed (seed emptyDB).db).db.users.length = 3 ∧
    (seed (seed emptyDB).db).db.projects.length = 3 :=
  seed_idempotent emptyDB rfl rfl

/-- C4: in a run on an initially-empty store, every created work record's
owner identifier is the identifier of an account created in that same run
(all accounts in the final store were created by the run, since the store
held none before). -/
theorem seed_referential_integrity (db : DB) (h : db.users = []) :
    ∀ p ∈ (seed db).db.projects.drop db.projects.length,
      ∃ u ∈ (seed db).db.users, p.owner_id = u.id := by
  obtain ⟨us, ps, n⟩ := db
  subst h
  intro p hp
  simp [seed, commitUsers, refreshedId, adminUser, managerUser, viewerUser,
    websiteRedesign, mobileApp, apiIntegration, List.enum, List.enumFrom,
    List.find?, Function.comp] at hp ⊢
  rcases hp with h | h | h <;> subst h <;> simp

theorem seed_referential_integrity_witness :
    ∃ u ∈ (seed emptyDB).db.users, (websiteRedesign 1).owner_id = u.id :=
  seed_referential_integrity emptyDB rfl (websiteRedesign 1) (by decide)

/-- C5: every account created by a seed run stores exactly the
CredentialHasher image of its own plaintext secret; the stored hash is never
bit-equal to the plaintext, and verifying the correct plaintext against the
stored hash succeeds. -/
theorem seed_credential_hashes (db : DB) (h : db.users = []) :
    ∀ su ∈ (seed db).db.users,
      su.hashed_password = get_password_hash (plaintextSecret su.email) ∧
      su.hashed_password ≠ plaintextSecret su.email ∧
      verify_password (plaintextSecret su.email) su.hashed_password = true := by
  obtain ⟨us, ps, n⟩ := db
  subst h
  intro su hsu
  simp [seed, commitUsers, adminUser, managerUser, viewerUser, List.enum,
    List.enumFrom] at hsu
  rcases hsu with h | h | h <;> subst h <;>
    simp [plaintextSecret, get_password_hash, verify_password]

theorem seed_credential_hashes_witness :
    ({ toUser := adminUser, id := 1 } : StoredUser).hashed_password =
      get_password_hash (plaintextSecret ({ toUser := adminUser, id := 1 } : StoredUser).email) ∧
    ({ toUser := adminUser, id := 1 } : StoredUser).hashed_password ≠
      plaintextSecret ({ toUser := adminUser, id := 1 } : StoredUser).email ∧
    verify_password (plaintextSecret ({ toUser := adminUser, id := 1 } : StoredUser).email)
      ({ toUser := adminUser, id := 1 } : StoredUser).hashed_password = true :=
  seed_credential_hashes emptyDB rfl { toUser := adminUser, id := 1 } (by decide)

/-- C6: after one run on an empty store there are exactly 3 accounts; the
account `admin@example.com` has the administrator role and owns exactly the
two work records "Website Redesign" and "API Integration"; the account
`manager@example.com` has the manager role and owns exactly one work record,
"Mobile App", with status draft and budget 10000000. -/
theorem seed_end_to_end (db : DB) (h1 : db.users = []) (h2 : db.projects = []) :
    (seed db).db.users.length = 3 ∧
    (∃ u ∈ (seed db).db.users, u.email = "admin@example.com" ∧ u.role = UserRole.admin ∧
      ((seed db).db.projects.filter (fun p => p.owner_id == u.id)).map Project.name =
        ["Website Redesign", "API Integration"]) ∧
    (∃ u ∈ (seed db).db.users, u.email = "manager@example.com" ∧ u.role = UserRole.manager ∧
      ∃ p0, (seed db).db.projects.filter (fun p => p.owner_id == u.id) = [p0] ∧
        p0.name = "Mobile App" ∧ p0.status = ProjectStatus.draft ∧ p0.budget = 10000000) := by
  obtain ⟨us, ps, n⟩ := db
  subst h1
  subst h2
  refine ⟨rfl, ?_, ?_⟩
  · refine ⟨{ toUser := adminUser, id := n }, ?_, rfl, rfl, ?_⟩
    · simp [seed, commitUsers, adminUser, managerUser, viewerUser, List.enum, List.enumFrom]
    · simp [seed, commitUsers, refreshedId, adminUser, managerUser, viewerUser,
        websiteRedesign, mobileApp, apiIntegration, List.enum, List.enumFrom,
        List.find?, Function.comp, List.filter, beq_succ_left, beq_succ_right]
  · refine ⟨{ toUser := managerUser, id := n + 1 }, ?_, rfl, rfl, ?_⟩
    · simp [seed, commitUsers, adminUser, managerUser, viewerUser, List.enum, List.enumFrom]
    · refine ⟨mobileApp (n + 1), ?_, rfl, rfl, rfl⟩
      simp [seed, commitUsers, refreshedId, adminUser, managerUser, viewerUser,
        websiteRedesign, mobileApp, apiIntegration, List.enum, List.enumFrom,
        List.find?, Function.comp, List.filter, beq_succ_left, beq_succ_right]

theorem seed_end_to_end_witness :
    (seed emptyDB).db.users.length = 3 ∧
    (∃ u ∈ (seed emptyDB).db.users, u.email = "admin@example.com" ∧ u.role = UserRole.admin ∧
      ((seed emptyDB).db.projects.filter (fun p => p.owner_id == u.id)).map Project.name =
        ["Website Redesign", "API Integration"]) ∧
    (∃ u ∈ (seed emptyDB).db.users, u.email = "manager@example.com" ∧ u.role = UserRole.manager ∧
      ∃ p0, (seed emptyDB).db.projects.filter (fun p => p.owner_id == u.id) = [p0] ∧
        p0.name = "Mobile App" ∧ p0.status = ProjectStatus.draft ∧ p0.budget = 10000000) :=
  seed_end_to_end emptyDB rfl rfl

/-- C7: in a run on an initially-empty store, the created work records carry
exactly the literal minor-unit integer budgets of the fixed specification:
"Website Redesign" 5000000, "Mobile App" 10000000, "API Integration" 2500000
(budgets are natural numbers in the model, so no floating-point value or
rounding is involved). -/
theorem seed_budgets_exact (db : DB) (h : db.users = []) :
    ((seed db).db.projects.drop db.projects.length).map (fun p => (p.name, p.budget)) =
      [("Website Redesign", 5000000), ("Mobile App", 10000000), ("API Integration", 2500000)] := by
  obtain ⟨us, ps, n⟩ := db
  subst h
  simp [seed, commitUsers, refreshedId, adminUser, managerUser, viewerUser,
    websiteRedesign, mobileApp, apiIntegration, List.enum, List.enumFrom,
    List.find?, Function.comp]

theorem seed_budgets_exact_witness :
    ((seed emptyDB).db.projects.drop emptyDB.projects.length).map (fun p => (p.name, p.budget)) =
      [("Website Redesign", 5000000), ("Mobile App", 10000000), ("API Integration", 2500000)] :=
  seed_budgets_exact emptyDB rfl

/-- C8: in every seeding run the Storage operation sequence is: count, insert
the three accounts, commit, retrieve the two owner identifiers, insert the
three work records, commit; `phaseOk` certifies that identifier retrieval and
work-record insertion happen only after a commit that followed the account
insertion. -/
theorem seed_phase_order (db : DB) (h : db.users = []) :
    (seed db).trace = [Event.countUsers 0, Event.insertUsers 3, Event.commit,
      Event.refresh "admin@example.com", Event.refresh "manager@example.com",
      Event.insertProjects 3, Event.commit] ∧
    phaseOk false false (seed db).trace = true := by
  obtain ⟨us, ps, n⟩ := db
  subst h
  exact ⟨rfl, rfl⟩

theorem seed_phase_order_witness :
    (seed emptyDB).trace = [Event.countUsers 0, Event.insertUsers 3, Event.commit,
      Event.refresh "admin@example.com", Event.refresh "manager@example.com",
      Event.insertProjects 3, Event.commit] ∧
    phaseOk false false (seed emptyDB).trace = true :=
  seed_phase_order emptyDB rfl

/-- C9: a failure of any external call — the count query, a hash, an insert
or a commit of either phase — propagates unchanged to the caller: the run
produces no Outcome and its result is exactly the underlying error.  Each
conjunct covers the earliest failure at one of the ten call sites. -/
theorem seedE_propagates_failures (ε : Type) (o : Oracle ε) (e : ε) :
    (o.countUsers = Except.error e → seedE o = Except.error e) ∧
    (o.countUsers = Except.ok 0 → o.hash "admin123" = Except.error e →
      seedE o = Except.error e) ∧
    (∀ h1, o.countUsers = Except.ok 0 → o.hash "admin123" = Except.ok h1 →
      o.hash "manager123" = Except.error e → seedE o = Except.error e) ∧
    (∀ h1 h2, o.countUsers = Except.ok 0 → o.hash "admin123" = Except.ok h1 →
      o.hash "manager123" = Except.ok h2 → o.hash "viewer123" = Except.error e →
      seedE o = Except.error e) ∧
    (∀ h1 h2 h3, o.countUsers = Except.ok 0 → o.hash "admin123" = Except.ok h1 →
      o.hash "manager123" = Except.ok h2 → o.hash "viewer123" = Except.ok h3 →
      o.insertUsers (seededUsers h1 h2 h3) = Except.error e →
      seedE o = Except.error e) ∧
    (∀ h1 h2 h3, o.countUsers = Except.ok 0 → o.hash "admin123" = Except.ok h1 →
      o.hash "manager123" = Except.ok h2 → o.hash "viewer123" = Except.ok h3 →
      o.insertUsers (seededUsers h1 h2 h3) = Except.ok () →
      o.commitUsers = Except.error e →
      seedE o = Except.error e) ∧
    (∀ h1 h2 h3, o.countUsers = Except.ok 0 → o.hash "admin123" = Except.ok h1 →
      o.hash "manager123" = Except.ok h2 → o.hash "viewer123" = Except.ok h3 →
      o.insertUsers (seededUsers h1 h2 h3) = Except.ok () →
      o.commitUsers = Except.ok () →
      o.refresh "admin@example.com" = Except.error e →
      seedE o = Except.error e) ∧
    (∀ h1 h2 h3 aid, o.countUsers = Except.ok 0 → o.hash "admin123" = Except.ok h1 →
      o.hash "manager123" = Except.ok h2 → o.hash "viewer123" = Except.ok h3 →
      o.insertUsers (seededUsers h1 h2 h3) = Except.ok () →
      o.commitUsers = Except.ok () →
      o.refresh "admin@example.com" = Except.ok aid →
      o.refresh "manager@example.com" = Except.error e →
      seedE o = Except.error e) ∧
    (∀ h1 h2 h3 aid mid, o.countUsers = Except.ok 0 → o.hash "admin123" = Except.ok h1 →
      o.hash "manager123" = Except.ok h2 → o.hash "viewer123" = Except.ok h3 →
      o.insertUsers (seededUsers h1 h2 h3) = Except.ok () →
      o.commitUsers = Except.ok () →
      o.refresh "admin@example.com" = Except.ok aid →
      o.refresh "manager@example.com" = Except.ok mid →
      o.insertProjects (seededProjects aid mid) = Except.error e →
      seedE o = Except.error e) ∧
    (∀ h1 h2 h3 aid mid, o.countUsers = Except.ok 0 → o.hash "admin123" = Except.ok h1 →
      o.hash "manager123" = Except.ok h2 → o.hash "viewer123" = Except.ok h3 →
      o.insertUsers (seededUsers h1 h2 h3) = Except.ok () →
      o.commitUsers = Except.ok () →
      o.refresh "admin@example.com" = Except.ok aid →
      o.refresh "manager@example.com" = Except.ok mid →
      o.insertProjects (seededProjects aid mid) = Except.ok () →
      o.commitProjects = Except.error e →
      seedE o = Except.error e) := by
  refine ⟨?_, ?_, ?_, ?_, ?_, ?_, ?_, ?_, ?_, ?_⟩ <;>
    · intros
      simp [seedE, Except.bind, *]

theorem seedE_propagates_failures_witness :
    seedE failingOracle = Except.error "db down" :=
  (seedE_propagates_failures String failingOracle "db down").1 rfl

/-- C10: every account created by a seed run on an initially-empty store has
its active flag set to true, and the created accounts carry exactly the three
pairwise distinct emails admin@example.com, manager@example.com and
viewer@example.com. -/
theorem seed_active_and_distinct_emails (db : DB) (h : db.users = []) :
    (∀ su ∈ (seed db).db.users, su.is_active = true) ∧
    (seed db).db.users.map (fun su => su.email) =
      ["admin@example.com", "manager@example.com", "viewer@example.com"] ∧
    ((seed db).db.users.map (fun su => su.email)).Nodup := by
  obtain ⟨us, ps, n⟩ := db
  subst h
  refine ⟨?_, rfl, ?_⟩
  · intro su hsu
    simp [seed, commitUsers, adminUser, managerUser, viewerUser, List.enum,
      List.enumFrom] at hsu
    rcases hsu with h | h | h <;> subst h <;> rfl
  · show (["admin@example.com", "manager@example.com", "viewer@example.com"] : List String).Nodup
    decide

theorem seed_active_and_distinct_emails_witness :
    ({ toUser := adminUser, id := 1 } : StoredUser).is_active = true ∧
    (seed emptyDB).db.users.map (fun su => su.email) =
      ["admin@example.com", "manager@example.com", "viewer@example.com"] ∧
    ((seed emptyDB).db.users.map (fun su => su.email)).Nodup :=
  ⟨(seed_active_and_distinct_emails emptyDB rfl).1 { toUser := adminUser, id := 1 } (by decide),
   (seed_active_and_distinct_emails emptyDB rfl).2.1,
   (seed_active_and_distinct_emails emptyDB rfl).2.2⟩

end SeedDb
